import Mathlib

/-!
# Shared-memory pool module and nonblocking atomic fetch-and-increment

A shallow embedding of

* `ompi/mca/mpool/sm/mpool_sm_module.c` : the shared-memory pool module
  (`mca_mpool_sm_module_init`, `mca_mpool_sm_base`, `mca_mpool_sm_alloc`,
  `mca_mpool_sm_realloc`, `mca_mpool_sm_free`, `mca_mpool_sm_ft_event`);
* `oshmem/shmem/c/shmem_finc_nb.c` : the `<kind>_atomic_fetch_inc_nbi`
  entry points generated by `DO_SHMEM_TYPE_ATOMIC_FETCH_INC_NBI`.

Pointers are natural numbers with `NULL = 0`; `size_t` values are natural
numbers; C `int` values are integers.  Calls to collaborators that live
outside the two files are recorded, in program order, in a list of call
records returned next to the C return value.
-/

namespace OmpiSm

/-! ## Part 1 : `mpool_sm_module.c`, the allocator adapter -/

/-- The null pointer. -/
def NULL : Nat := 0

/-- Status `OMPI_SUCCESS`. -/
def OMPI_SUCCESS : Int := 0

/-- One segment handed to the memory-affinity framework
(`opal_maffinity_base_segment_t`): start address and length. -/
structure opal_maffinity_base_segment_t where
  mbs_start_addr : Nat
  mbs_len : Nat
  deriving DecidableEq, Repr

/-- A recorded call `opal_maffinity_base_bind(segments, num_segments, node_id)`. -/
structure BindCall where
  segments : List opal_maffinity_base_segment_t
  num_segments : Nat
  node_id : Int
  deriving DecidableEq, Repr

/-- The generic allocator behind the pool (`mca_allocator_base_module_t`): its
private state and its three function pointers.  Each function receives the
allocator state and returns the new one. -/
structure mca_allocator_base_module_t (σ : Type) where
  alc_state : σ
  /-- The call `alc_alloc(allocator, size, align, registration)`. -/
  alc_alloc : σ → Nat → Nat → Nat → Nat × σ
  /-- The call `alc_realloc(allocator, addr, size, registration)`. -/
  alc_realloc : σ → Nat → Nat → Nat → Nat × σ
  /-- The call `alc_free(allocator, addr)`. -/
  alc_free : σ → Nat → σ

/-- The functions of this file that `mca_mpool_sm_module_init` stores in the
function-pointer table of the module. -/
inductive SmFn where
  | mca_mpool_sm_base
  | mca_mpool_sm_alloc
  | mca_mpool_sm_realloc
  | mca_mpool_sm_free
  | mca_mpool_sm_ft_event
  deriving DecidableEq, Repr

/-- The base part of the module (`mca_mpool_base_module_t`): a function
pointer is `none` when it is `NULL`. -/
structure mca_mpool_base_module_t where
  mpool_component : Option String
  mpool_base : Option SmFn
  mpool_alloc : Option SmFn
  mpool_realloc : Option SmFn
  mpool_free : Option SmFn
  mpool_find : Option SmFn
  mpool_register : Option SmFn
  mpool_deregister : Option SmFn
  mpool_release_memory : Option SmFn
  mpool_finalize : Option SmFn
  mpool_ft_event : Option SmFn
  flags : Nat
  deriving DecidableEq, Repr

/-- The shared-memory pool module (`mca_mpool_sm_module_t`). -/
structure mca_mpool_sm_module_t (σ : Type) where
  super : mca_mpool_base_module_t
  sm_allocator : mca_allocator_base_module_t σ
  mem_node : Int

/-- Initializes the mpool module: fills the function table and leaves the
module unbound, `mem_node = -1`. -/
def mca_mpool_sm_module_init {σ : Type} (mpool : mca_mpool_sm_module_t σ) :
    mca_mpool_sm_module_t σ :=
  { mpool with
    super :=
      { mpool_component := some "mca_mpool_sm_component"
        mpool_base := some SmFn.mca_mpool_sm_base
        mpool_alloc := some SmFn.mca_mpool_sm_alloc
        mpool_realloc := some SmFn.mca_mpool_sm_realloc
        mpool_free := some SmFn.mca_mpool_sm_free
        mpool_find := none
        mpool_register := none
        mpool_deregister := none
        mpool_release_memory := none
        mpool_finalize := none
        mpool_ft_event := some SmFn.mca_mpool_sm_ft_event
        flags := 0 }
    mem_node := -1 }

/-- What one call of `mca_mpool_sm_alloc` / `mca_mpool_sm_realloc` produces:
the returned address, the module afterwards (the allocator has moved on) and
the binding calls issued, in order. -/
structure SmResult (σ : Type) where
  ret : Nat
  mpool : mca_mpool_sm_module_t σ
  binds : List BindCall

/-- The allocate function.  `bind` is the memory-affinity primitive
`opal_maffinity_base_bind`; the status it returns is dropped by the code. -/
def mca_mpool_sm_alloc {σ : Type} (bind : BindCall → Int)
    (mpool_sm : mca_mpool_sm_module_t σ) (size align : Nat) (flags : Nat)
    (registration : Nat) : SmResult σ :=
  let r := mpool_sm.sm_allocator.alc_alloc mpool_sm.sm_allocator.alc_state size align
    registration
  let mbs_start_addr := r.1
  let mpool1 : mca_mpool_sm_module_t σ :=
    { mpool_sm with sm_allocator := { mpool_sm.sm_allocator with alc_state := r.2 } }
  let _unused := flags
  if 0 ≤ mpool_sm.mem_node then
    let mseg : opal_maffinity_base_segment_t :=
      { mbs_start_addr := mbs_start_addr, mbs_len := size }
    let call : BindCall := { segments := [mseg], num_segments := 1, node_id := mpool_sm.mem_node }
    let _rc := bind call
    { ret := mseg.mbs_start_addr, mpool := mpool1, binds := [call] }
  else
    { ret := mbs_start_addr, mpool := mpool1, binds := [] }

/-- The realloc function. -/
def mca_mpool_sm_realloc {σ : Type} (bind : BindCall → Int)
    (mpool_sm : mca_mpool_sm_module_t σ) (addr size : Nat)
    (registration : Nat) : SmResult σ :=
  let r := mpool_sm.sm_allocator.alc_realloc mpool_sm.sm_allocator.alc_state addr size
    registration
  let mbs_start_addr := r.1
  let mpool1 : mca_mpool_sm_module_t σ :=
    { mpool_sm with sm_allocator := { mpool_sm.sm_allocator with alc_state := r.2 } }
  if 0 ≤ mpool_sm.mem_node then
    let mseg : opal_maffinity_base_segment_t :=
      { mbs_start_addr := mbs_start_addr, mbs_len := size }
    let call : BindCall := { segments := [mseg], num_segments := 1, node_id := mpool_sm.mem_node }
    let _rc := bind call
    { ret := mseg.mbs_start_addr, mpool := mpool1, binds := [call] }
  else
    { ret := mbs_start_addr, mpool := mpool1, binds := [] }

/-- The free function: delegates to the allocator, no binding call. -/
def mca_mpool_sm_free {σ : Type} (mpool_sm : mca_mpool_sm_module_t σ) (addr : Nat)
    (registration : Nat) : mca_mpool_sm_module_t σ :=
  let _unused := registration
  { mpool_sm with
    sm_allocator :=
      { mpool_sm.sm_allocator with
        alc_state := mpool_sm.sm_allocator.alc_free mpool_sm.sm_allocator.alc_state addr } }

/-- A request made through the function table of the module: either
`mpool_alloc(size, align, flags, registration)` or
`mpool_realloc(addr, size, registration)`. -/
inductive SmRequest where
  | alloc (size align flags registration : Nat)
  | realloc (addr size registration : Nat)
  deriving DecidableEq, Repr

/-- The size a request asks for. -/
def SmRequest.size : SmRequest → Nat
  | .alloc size _ _ _ => size
  | .realloc _ size _ => size

/-- The address the underlying allocator produces for a request
(`alc_alloc` for an allocation, `alc_realloc` for a reallocation). -/
def allocator_address {σ : Type} (mpool_sm : mca_mpool_sm_module_t σ) : SmRequest → Nat
  | .alloc size align _ registration =>
      (mpool_sm.sm_allocator.alc_alloc mpool_sm.sm_allocator.alc_state size align
        registration).1
  | .realloc addr size registration =>
      (mpool_sm.sm_allocator.alc_realloc mpool_sm.sm_allocator.alc_state addr size
        registration).1

/-- Serving a request: the call goes to `mca_mpool_sm_alloc` or to
`mca_mpool_sm_realloc`, the two functions installed by
`mca_mpool_sm_module_init`. -/
def sm_serve {σ : Type} (bind : BindCall → Int) (mpool_sm : mca_mpool_sm_module_t σ) :
    SmRequest → SmResult σ
  | .alloc size align flags registration =>
      mca_mpool_sm_alloc bind mpool_sm size align flags registration
  | .realloc addr size registration =>
      mca_mpool_sm_realloc bind mpool_sm addr size registration

/-! ### A concrete allocator used to evaluate the definitions -/

/-- A bump allocator over the addresses `[next, limit)`: it fails (returns
`NULL`) on a zero size or when the arena is exhausted. -/
def bumpAllocator (next limit : Nat) : mca_allocator_base_module_t (Nat × Nat) where
  alc_state := (next, limit)
  alc_alloc := fun s size _ _ =>
    if size = 0 ∨ s.2 < s.1 + size then (NULL, s) else (s.1, (s.1 + size, s.2))
  alc_realloc := fun s _ size _ =>
    if size = 0 ∨ s.2 < s.1 + size then (NULL, s) else (s.1, (s.1 + size, s.2))
  alc_free := fun s _ => s

/-- A module over the bump allocator with the given `mem_node`. -/
def bumpModule (next limit : Nat) (node : Int) : mca_mpool_sm_module_t (Nat × Nat) where
  super :=
    { mpool_component := none, mpool_base := none, mpool_alloc := none
      mpool_realloc := none, mpool_free := none, mpool_find := none
      mpool_register := none, mpool_deregister := none, mpool_release_memory := none
      mpool_finalize := none, mpool_ft_event := none, flags := 0 }
  sm_allocator := bumpAllocator next limit
  mem_node := node

/-! ## Part 2 : `mpool_sm_module.c`, the fault-tolerance event handler

The handler is the variant compiled when `OPAL_ENABLE_FT == 1`. -/

/-- Modelled from the spec: the `OPAL_CRS_*` state constants compared with
`state` are declared outside the two files; the spec gives the enumeration
"Checkpoint, Continue, Restart, RestartPre, Terminate, Other", and `other`
carries every remaining integer code. -/
inductive opal_crs_state where
  | OPAL_CRS_CHECKPOINT
  | OPAL_CRS_CONTINUE
  | OPAL_CRS_RESTART
  | OPAL_CRS_RESTART_PRE
  | OPAL_CRS_TERM
  | other (code : Int)
  deriving DecidableEq, Repr

/-- The mapped shared-memory arena (`mca_common_sm_mmap_t`): the fields the
pool module reads. -/
structure mca_common_sm_mmap_t where
  map_addr : Nat
  map_path : String
  deriving DecidableEq, Repr

/-- An entry of the global list of pool modules: the name of its component
and the identity of the module instance. -/
structure ModuleEntry where
  component_name : String
  instance_id : Nat
  deriving DecidableEq, Repr

/-- The process-wide state the handler works on: the module registry and the
global `mca_common_sm_mmap` (`none` when it is `NULL`). -/
structure FtWorld where
  mca_mpool_base_modules : List ModuleEntry
  mca_common_sm_mmap : Option mca_common_sm_mmap_t
  deriving DecidableEq, Repr

/-- What the handler reads from its surroundings: the process information, the
string constants of the headers, the `ompi_cr_continue_like_restart` flag and
the status `mca_common_sm_mmap_fini` returns for an arena. -/
structure FtEnv where
  job_session_dir : String
  nodename : String
  OPAL_PATH_SEP : String
  CRS_METADATA_TOUCH : String
  ompi_cr_continue_like_restart : Bool
  mca_common_sm_mmap_fini : mca_common_sm_mmap_t → Int

/-- The collaborator calls the handler can issue. -/
inductive FtCall where
  /-- The call `opal_crs_base_metadata_write_token(snapshot, token, value)`; the
  snapshot handle is `none` for `NULL`. -/
  | metadata_write_token (snapshot : Option Nat) (token value : String)
  /-- The call `mca_mpool_base_module_lookup(name)`. -/
  | module_lookup (name : String)
  /-- The call `mca_mpool_base_module_destroy(module)`, `none` for `NULL`. -/
  | module_destroy (module : Option Nat)
  /-- The call `mca_common_sm_mmap_fini(arena)`. -/
  | mmap_fini (arena : mca_common_sm_mmap_t)
  /-- The call `opal_crs_base_cleanup_append(path, is_immediate)`. -/
  | cleanup_append (path : String) (immediate_flag : Bool)
  /-- The statement `OBJ_RELEASE(arena)`. -/
  | obj_release (arena : mca_common_sm_mmap_t)
  deriving DecidableEq, Repr

/-- Modelled from the spec: `mca_mpool_base_module_lookup` is defined outside
the two files; the spec lists "Module registry: lookup-by-name": the instance
registered under the component name, `none` (a `NULL` module) when there is
none. -/
def mca_mpool_base_module_lookup (modules : List ModuleEntry) (name : String) : Option Nat :=
  (modules.find? (fun e => e.component_name == name)).map (fun e => e.instance_id)

/-- Modelled from the spec: `mca_mpool_base_module_destroy` is defined outside
the two files; the spec lists "Module registry: destroy-instance" and
"Unregister this allocator instance from the global module registry": the
instance leaves the registry; destroying `NULL` changes nothing. -/
def mca_mpool_base_module_destroy (modules : List ModuleEntry) :
    Option Nat → List ModuleEntry
  | none => modules
  | some m => modules.filter (fun e => e.instance_id ≠ m)

/-- Modelled from the spec: `OBJ_RELEASE` is a macro defined outside the two
files; the spec says "release ownership of the arena object", after which no
arena is mapped until a fresh one is created: the global handle is cleared. -/
def OBJ_RELEASE (_arena : mca_common_sm_mmap_t) : Option mca_common_sm_mmap_t := none

/-- The file name built by `asprintf` in the checkpoint branch:
`"%s" OPAL_PATH_SEP "shared_mem_pool.%s"` applied to the job session directory
and the node name. -/
def checkpoint_file_name (env : FtEnv) : String :=
  env.job_session_dir ++ env.OPAL_PATH_SEP ++ "shared_mem_pool." ++ env.nodename

/-- What one call of the handler produces: the C return value, the process-wide
state afterwards and the collaborator calls issued, in order. -/
structure FtResult where
  rc : Int
  world : FtWorld
  calls : List FtCall
  deriving DecidableEq, Repr

/-- The base-address function: the mapped address, or `NULL` with no arena. -/
def mca_mpool_sm_base (w : FtWorld) : Nat :=
  match w.mca_common_sm_mmap with
  | some arena => arena.map_addr
  | none => NULL

/-- The fault-tolerance event handler (`OPAL_ENABLE_FT == 1`), branch by branch
as in the source: checkpoint, continue, restart / restart-pre, term, else. -/
def mca_mpool_sm_ft_event (env : FtEnv) (state : opal_crs_state) (w : FtWorld) : FtResult :=
  if state = opal_crs_state.OPAL_CRS_CHECKPOINT then
    let file_name := checkpoint_file_name env
    { rc := OMPI_SUCCESS, world := w
      calls := [FtCall.metadata_write_token none env.CRS_METADATA_TOUCH file_name] }
  else if state = opal_crs_state.OPAL_CRS_CONTINUE then
    if env.ompi_cr_continue_like_restart then
      let self_module := mca_mpool_base_module_lookup w.mca_mpool_base_modules "sm"
      let modules1 := mca_mpool_base_module_destroy w.mca_mpool_base_modules self_module
      let calls1 := [FtCall.module_lookup "sm", FtCall.module_destroy self_module]
      match w.mca_common_sm_mmap with
      | some arena =>
        if env.mca_common_sm_mmap_fini arena = OMPI_SUCCESS then
          { rc := OMPI_SUCCESS
            world := { mca_mpool_base_modules := modules1, mca_common_sm_mmap := OBJ_RELEASE arena }
            calls := calls1 ++ [FtCall.mmap_fini arena,
              FtCall.cleanup_append arena.map_path false, FtCall.obj_release arena] }
        else
          { rc := OMPI_SUCCESS
            world := { mca_mpool_base_modules := modules1, mca_common_sm_mmap := OBJ_RELEASE arena }
            calls := calls1 ++ [FtCall.mmap_fini arena, FtCall.obj_release arena] }
      | none =>
        { rc := OMPI_SUCCESS
          world := { mca_mpool_base_modules := modules1, mca_common_sm_mmap := none }
          calls := calls1 }
    else
      { rc := OMPI_SUCCESS, world := w, calls := [] }
  else if state = opal_crs_state.OPAL_CRS_RESTART ∨
      state = opal_crs_state.OPAL_CRS_RESTART_PRE then
    let self_module := mca_mpool_base_module_lookup w.mca_mpool_base_modules "sm"
    let modules1 := mca_mpool_base_module_destroy w.mca_mpool_base_modules self_module
    let calls1 := [FtCall.module_lookup "sm", FtCall.module_destroy self_module]
    match w.mca_common_sm_mmap with
    | some arena =>
      if env.mca_common_sm_mmap_fini arena = OMPI_SUCCESS then
        { rc := OMPI_SUCCESS
          world := { mca_mpool_base_modules := modules1, mca_common_sm_mmap := OBJ_RELEASE arena }
          calls := calls1 ++ [FtCall.mmap_fini arena,
            FtCall.cleanup_append arena.map_path false, FtCall.obj_release arena] }
      else
        { rc := OMPI_SUCCESS
          world := { mca_mpool_base_modules := modules1, mca_common_sm_mmap := OBJ_RELEASE arena }
          calls := calls1 ++ [FtCall.mmap_fini arena, FtCall.obj_release arena] }
    | none =>
      { rc := OMPI_SUCCESS
        world := { mca_mpool_base_modules := modules1, mca_common_sm_mmap := none }
        calls := calls1 }
  else if state = opal_crs_state.OPAL_CRS_TERM then
    { rc := OMPI_SUCCESS, world := w, calls := [] }
  else
    { rc := OMPI_SUCCESS, world := w, calls := [] }

/-- Delivering a finite sequence of events, each with the surroundings it is
delivered in: the state after the last one and all the collaborator calls, in
order. -/
def ft_deliver : List (FtEnv × opal_crs_state) → FtWorld → FtWorld × List FtCall
  | [], w => (w, [])
  | (env, state) :: rest, w =>
    let r := mca_mpool_sm_ft_event env state w
    let tail := ft_deliver rest r.world
    (tail.1, r.calls ++ tail.2)

/-- The calls that concern the arena: finalize, cleanup append, release. -/
def FtCall.isArenaCall : FtCall → Bool
  | .mmap_fini _ => true
  | .cleanup_append _ _ => true
  | .obj_release _ => true
  | _ => false

/-- The call is a registry destroy. -/
def FtCall.isDestroy : FtCall → Bool
  | .module_destroy _ => true
  | _ => false

/-- The call is a registry lookup. -/
def FtCall.isLookup : FtCall → Bool
  | .module_lookup _ => true
  | _ => false

/-- The instance `m` is in the registry. -/
def registered (m : Nat) (modules : List ModuleEntry) : Prop :=
  ∃ e ∈ modules, e.instance_id = m

/-- Surroundings used to evaluate the handler: a fixed session directory and
node name, the given flag and the given finalize status. -/
def sampleEnv (flag : Bool) (fini_status : Int) : FtEnv where
  job_session_dir := "/tmp/job"
  nodename := "n0"
  OPAL_PATH_SEP := "/"
  CRS_METADATA_TOUCH := "touch"
  ompi_cr_continue_like_restart := flag
  mca_common_sm_mmap_fini := fun _ => fini_status

/-- A state with the "sm" module registered as instance 7 next to another
module, and an arena mapped. -/
def sampleWorld : FtWorld where
  mca_mpool_base_modules :=
    [{ component_name := "rdma", instance_id := 3 }, { component_name := "sm", instance_id := 7 }]
  mca_common_sm_mmap := some { map_addr := 4096, map_path := "/tmp/job/shared_mem_pool.n0" }

/-! ## Part 3 : `shmem_finc_nb.c`, nonblocking atomic fetch-and-increment -/

/-- Status `OSHMEM_SUCCESS`. -/
def OSHMEM_SUCCESS : Int := 0

/-- The twelve element kinds the entry points are generated for, named by the
`type_name` argument of the generating macros. -/
inductive ElemKind where
  | _int
  | _long
  | _longlong
  | _uint
  | _ulong
  | _ulonglong
  | _int32
  | _int64
  | _uint32
  | _uint64
  | _size
  | _ptrdiff
  deriving DecidableEq, Repr

/-- The byte sizes the C implementation gives to the types whose size the
language leaves open. -/
structure CTypes where
  sizeof_int : Nat
  sizeof_long : Nat
  sizeof_longlong : Nat
  sizeof_size_t : Nat
  sizeof_ptrdiff_t : Nat
  deriving DecidableEq, Repr

/-- The usual 64-bit data model: `int` has 4 bytes, the others 8. -/
def lp64 : CTypes where
  sizeof_int := 4
  sizeof_long := 8
  sizeof_longlong := 8
  sizeof_size_t := 8
  sizeof_ptrdiff_t := 8

/-- The value of `sizeof(out_value)` for `type out_value`, per element kind:
`int`, `long`, `long long`, their unsigned counterparts, `int32_t`, `int64_t`,
`uint32_t`, `uint64_t`, `size_t`, `ptrdiff_t`. -/
def ElemKind.sizeof (ct : CTypes) : ElemKind → Nat
  | ._int => ct.sizeof_int
  | ._long => ct.sizeof_long
  | ._longlong => ct.sizeof_longlong
  | ._uint => ct.sizeof_int
  | ._ulong => ct.sizeof_long
  | ._ulonglong => ct.sizeof_longlong
  | ._int32 => 4
  | ._int64 => 8
  | ._uint32 => 4
  | ._uint64 => 8
  | ._size => ct.sizeof_size_t
  | ._ptrdiff => ct.sizeof_ptrdiff_t

/-- A recorded transport call
`fadd_nb(ctx, fetch, target, prev, value, size, pe)`. -/
structure FaddNbCall where
  ctx : Nat
  fetch : Nat
  target : Nat
  prev : Nat
  value : Nat
  size : Nat
  pe : Int
  deriving DecidableEq, Repr

/-- The failure classes of the spec for the three precondition checks. -/
inductive CheckFailure where
  | RuntimeNotInitialized
  | InvalidParticipant
  | InvalidAddress
  deriving DecidableEq, Repr

/-- The status a call yields: success, the class of the precondition that
failed, or the status of a failed transport call. -/
inductive ShmemStatus where
  | success
  | failed (cls : CheckFailure)
  | transport (rc : Int)
  deriving DecidableEq, Repr

/-- What the entry points read from the runtime: the C data model, the
initialization flag, the number of participants, the calling participant, the
symmetric-address test of the memory heap, the default context, the address of
the local variable `out_value` of the entry point, and the status the transport
returns for a call. -/
structure Runtime where
  ctypes : CTypes
  oshmem_shmem_initialized : Bool
  oshmem_num_procs : Int
  my_pe : Int
  is_symmetric_addr : Nat → Bool
  oshmem_ctx_default : Nat
  out_value_addr : Nat
  transport_rc : FaddNbCall → Int

/-- The state the calls act on: the memory cells of every participant
(participant, address), the transport calls issued so far and the accepted
operations that have not completed yet. -/
structure ShmemWorld where
  mem : Int → Nat → Nat
  issued : List FaddNbCall
  outstanding : List FaddNbCall

/-- What one call of an entry point yields.  The C functions return `void`:
`status` is the classification raised by the check macros. -/
structure CallOutcome where
  status : ShmemStatus
  world : ShmemWorld

/-- Modelled from the spec: `RUNTIME_CHECK_INIT` is a macro defined outside the
two files; the spec says "Runtime must be initialized", a failing check leaves
the call at once with its own failure class. `none` means the check passed. -/
def RUNTIME_CHECK_INIT (rt : Runtime) : Option CheckFailure :=
  if rt.oshmem_shmem_initialized then none else some CheckFailure.RuntimeNotInitialized

/-- Modelled from the spec: `RUNTIME_CHECK_PE` is a macro defined outside the
two files; the spec says "`pe` must be a valid participant index in
`[0, num_participants)`". -/
def RUNTIME_CHECK_PE (rt : Runtime) (pe : Int) : Option CheckFailure :=
  if 0 ≤ pe ∧ pe < rt.oshmem_num_procs then none else some CheckFailure.InvalidParticipant

/-- Modelled from the spec: `RUNTIME_CHECK_ADDR` is a macro defined outside the
two files; the spec says "`target_address` must lie within the caller's
remotely-addressable region". -/
def RUNTIME_CHECK_ADDR (rt : Runtime) (target : Nat) : Option CheckFailure :=
  if rt.is_symmetric_addr target then none else some CheckFailure.InvalidAddress

/-- Modelled from the spec: `RUNTIME_CHECK_RC` is a macro defined outside the
two files; the spec says a transport failure is "propagated unchanged from the
transport primitive to the immediate caller". -/
def RUNTIME_CHECK_RC (rc : Int) : ShmemStatus :=
  if rc = OSHMEM_SUCCESS then ShmemStatus.success else ShmemStatus.transport rc

/-- Modelled from the spec: the transport primitive behind
`MCA_ATOMIC_CALL(fadd_nb(...))` is defined outside the two files; the spec
lists `fetch_add_nbi(context, fetch_slot, target_address, addend, width, pe)
-> status`, nonblocking: the call is issued, and when the transport accepts it
the operation stays outstanding until completion. -/
def fadd_nb (rt : Runtime) (call : FaddNbCall) (w : ShmemWorld) : Int × ShmemWorld :=
  let rc := rt.transport_rc call
  (rc, { w with
         issued := w.issued ++ [call]
         outstanding := if rc = OSHMEM_SUCCESS then w.outstanding ++ [call] else w.outstanding })

/-- Writing one memory cell of one participant. -/
def mem_store (mem : Int → Nat → Nat) (pe : Int) (addr : Nat) (v : Nat) : Int → Nat → Nat :=
  fun p a => if p = pe ∧ a = addr then v else mem p a

/-- Modelled from the spec: the completion of one outstanding operation, which
the transport engine performs outside the two files; the spec says it
"atomically reads the current value stored at `target_address` on participant
`pe`, increments it ..., writes the incremented value back, and delivers the
pre-increment value" into the fetch slot of the caller.  The cell is read and
written as an integer of `size` bytes. -/
def fadd_complete (my_pe : Int) (mem : Int → Nat → Nat) (c : FaddNbCall) : Int → Nat → Nat :=
  let old := mem c.pe c.target % 2 ^ (8 * c.size)
  let mem1 := mem_store mem c.pe c.target ((old + c.value) % 2 ^ (8 * c.size))
  mem_store mem1 my_pe c.fetch old

/-- Modelled from the spec: the completion primitive is outside the two files
("callers must invoke those separately"); it completes the outstanding
operations in the order they were accepted. -/
def shmem_quiet (rt : Runtime) (w : ShmemWorld) : ShmemWorld :=
  { w with
    mem := w.outstanding.foldl (fadd_complete rt.my_pe) w.mem
    outstanding := [] }

/-- The body generated by `DO_SHMEM_TYPE_ATOMIC_FETCH_INC_NBI(ctx, type_name,
type, fetch, target, pe, out_value)`: `value = 1`, the three checks in order,
`size = sizeof(out_value)`, one `fadd_nb` call, the check of its status.
`out_value` is the address of the local variable of that name. -/
def DO_SHMEM_TYPE_ATOMIC_FETCH_INC_NBI (rt : Runtime) (ctx : Nat) (type_name : ElemKind)
    (fetch target : Nat) (pe : Int) (out_value : Nat) (w : ShmemWorld) : CallOutcome :=
  let value : Nat := 1
  match RUNTIME_CHECK_INIT rt with
  | some cls => { status := ShmemStatus.failed cls, world := w }
  | none =>
    match RUNTIME_CHECK_PE rt pe with
    | some cls => { status := ShmemStatus.failed cls, world := w }
    | none =>
      match RUNTIME_CHECK_ADDR rt target with
      | some cls => { status := ShmemStatus.failed cls, world := w }
      | none =>
        let size := type_name.sizeof rt.ctypes
        let r := fadd_nb rt
          { ctx := ctx, fetch := fetch, target := target, prev := out_value
            value := value, size := size, pe := pe } w
        { status := RUNTIME_CHECK_RC r.1, world := r.2 }

/-- The explicit-context entry point
`shmem_ctx<type_name>_atomic_fetch_inc_nbi(ctx, fetch, target, pe)`. -/
def shmem_ctx_atomic_fetch_inc_nbi (rt : Runtime) (type_name : ElemKind) (ctx : Nat)
    (fetch target : Nat) (pe : Int) (w : ShmemWorld) : CallOutcome :=
  DO_SHMEM_TYPE_ATOMIC_FETCH_INC_NBI rt ctx type_name fetch target pe rt.out_value_addr w

/-- The default-context entry point
`shmem<type_name>_atomic_fetch_inc_nbi(fetch, target, pe)`. -/
def shmem_atomic_fetch_inc_nbi (rt : Runtime) (type_name : ElemKind)
    (fetch target : Nat) (pe : Int) (w : ShmemWorld) : CallOutcome :=
  DO_SHMEM_TYPE_ATOMIC_FETCH_INC_NBI rt rt.oshmem_ctx_default type_name fetch target pe
    rt.out_value_addr w

/-- The two call forms: with the context of the caller, or with none. -/
inductive CallForm where
  | explicit (ctx : Nat)
  | default
  deriving DecidableEq, Repr

/-- One of the twenty-four entry points, chosen by element kind and call form. -/
def atomic_fetch_inc_nbi (rt : Runtime) (type_name : ElemKind) (form : CallForm)
    (fetch target : Nat) (pe : Int) (w : ShmemWorld) : CallOutcome :=
  match form with
  | .explicit ctx => shmem_ctx_atomic_fetch_inc_nbi rt type_name ctx fetch target pe w
  | .default => shmem_atomic_fetch_inc_nbi rt type_name fetch target pe w

/-- A runtime used to evaluate the entry points: four participants, the caller
is participant 0, the symmetric region is the addresses `[1000, 2000)`, and the
transport accepts every call. -/
def sampleRuntime (initialized : Bool) : Runtime where
  ctypes := lp64
  oshmem_shmem_initialized := initialized
  oshmem_num_procs := 4
  my_pe := 0
  is_symmetric_addr := fun a => decide (1000 ≤ a ∧ a < 2000)
  oshmem_ctx_default := 1
  out_value_addr := 900
  transport_rc := fun _ => OSHMEM_SUCCESS

/-- A state in which every cell of every participant holds `v` and nothing has
been issued. -/
def sampleShmem (v : Nat) : ShmemWorld where
  mem := fun _ _ => v
  issued := []
  outstanding := []

/-! ## Theorems : the allocator adapter -/

/-- Serving a request returns the address of the allocator and issues one
binding call for `(address, size)` on `mem_node` when `mem_node` is not
negative, none otherwise. -/
theorem sm_serve_eq {σ : Type} (bind : BindCall → Int) (mpool_sm : mca_mpool_sm_module_t σ)
    (req : SmRequest) :
    (sm_serve bind mpool_sm req).ret = allocator_address mpool_sm req ∧
    (sm_serve bind mpool_sm req).binds =
      if 0 ≤ mpool_sm.mem_node then
        [{ segments := [{ mbs_start_addr := allocator_address mpool_sm req
                          mbs_len := req.size }]
           num_segments := 1
           node_id := mpool_sm.mem_node }]
      else [] := by
  cases req with
  | alloc size align flags registration =>
    by_cases h : 0 ≤ mpool_sm.mem_node <;>
      simp [sm_serve, mca_mpool_sm_alloc, allocator_address, SmRequest.size, h]
  | realloc addr size registration =>
    by_cases h : 0 ≤ mpool_sm.mem_node <;>
      simp [sm_serve, mca_mpool_sm_realloc, allocator_address, SmRequest.size, h]

/-- The binding status never reaches the result: two binding primitives give
the same result. -/
theorem sm_serve_bind_irrelevant {σ : Type} (bind bind2 : BindCall → Int)
    (mpool_sm : mca_mpool_sm_module_t σ) (req : SmRequest) :
    sm_serve bind mpool_sm req = sm_serve bind2 mpool_sm req := by
  cases req with
  | alloc size align flags registration =>
    by_cases h : 0 ≤ mpool_sm.mem_node <;> simp [sm_serve, mca_mpool_sm_alloc, h]
  | realloc addr size registration =>
    by_cases h : 0 ≤ mpool_sm.mem_node <;> simp [sm_serve, mca_mpool_sm_realloc, h]

/-- C1: for a successful `mca_mpool_sm_alloc(size, align)` or
`mca_mpool_sm_realloc(addr, size)` (the allocator returns a non-null address
`a`) the binding calls are determined by `mem_node`: bound to a node `N >= 0`,
exactly one `opal_maffinity_base_bind` call is issued, with the single segment
`(a, size)`, on node `N`; with the unbound sentinel `-1`, which is what
`mca_mpool_sm_module_init` sets, no binding call is issued. -/
theorem sm_binding_determined_by_mem_node {σ : Type} (bind : BindCall → Int)
    (mpool_sm : mca_mpool_sm_module_t σ) (req : SmRequest)
    (hsuccess : allocator_address mpool_sm req ≠ NULL) :
    (sm_serve bind mpool_sm req).ret = allocator_address mpool_sm req ∧
    (sm_serve bind mpool_sm req).ret ≠ NULL ∧
    (∀ N : Int, 0 ≤ N → mpool_sm.mem_node = N →
      (sm_serve bind mpool_sm req).binds =
        [{ segments := [{ mbs_start_addr := allocator_address mpool_sm req
                          mbs_len := req.size }]
           num_segments := 1
           node_id := N }]) ∧
    (mpool_sm.mem_node = -1 → (sm_serve bind mpool_sm req).binds = []) ∧
    (mca_mpool_sm_module_init mpool_sm).mem_node = -1 ∧
    (sm_serve bind (mca_mpool_sm_module_init mpool_sm) req).binds = [] := by
  have h := sm_serve_eq bind mpool_sm req
  have hinit := sm_serve_eq bind (mca_mpool_sm_module_init mpool_sm) req
  refine ⟨h.1, ?_, ?_, ?_, rfl, ?_⟩
  · rw [h.1]; exact hsuccess
  · intro N hN hnode
    rw [h.2, if_pos (by rw [hnode]; exact hN), hnode]
  · intro hnode
    rw [h.2, if_neg (by rw [hnode]; decide)]
  · rw [hinit.2, if_neg (by simp [mca_mpool_sm_module_init])]

/-- C1 at concrete inputs: a bump allocator at address 4096, bound to node 2,
serves `alloc(64, 8)`. -/
theorem sm_binding_determined_by_mem_node_witness :
    (sm_serve (fun _ => -1) (bumpModule 4096 8192 2) (SmRequest.alloc 64 8 0 0)).ret = 4096 ∧
    (sm_serve (fun _ => -1) (bumpModule 4096 8192 2) (SmRequest.alloc 64 8 0 0)).binds =
      [{ segments := [{ mbs_start_addr := 4096, mbs_len := 64 }], num_segments := 1
         node_id := 2 }] := by
  have h := sm_binding_determined_by_mem_node (fun _ => -1) (bumpModule 4096 8192 2)
    (SmRequest.alloc 64 8 0 0) (by decide)
  exact ⟨h.1, h.2.2.1 2 (by decide) rfl⟩

/-- C2: for every module, request and binding primitive, `mca_mpool_sm_alloc`
and `mca_mpool_sm_realloc` return exactly the address of `alc_alloc` /
`alc_realloc`; the whole result is the same under any other binding primitive
(a binding failure changes nothing), at most one binding call is issued (no
retry), and an allocator failure is a null return. -/
theorem sm_returns_allocator_address {σ : Type} (bind : BindCall → Int)
    (mpool_sm : mca_mpool_sm_module_t σ) (req : SmRequest) :
    (sm_serve bind mpool_sm req).ret = allocator_address mpool_sm req ∧
    (∀ bind2 : BindCall → Int, sm_serve bind2 mpool_sm req = sm_serve bind mpool_sm req) ∧
    (sm_serve bind mpool_sm req).binds.length ≤ 1 ∧
    ((sm_serve bind mpool_sm req).ret = NULL ↔ allocator_address mpool_sm req = NULL) := by
  have h := sm_serve_eq bind mpool_sm req
  refine ⟨h.1, fun bind2 => sm_serve_bind_irrelevant bind2 bind mpool_sm req, ?_, ?_⟩
  · rw [h.2]; split <;> simp
  · rw [h.1]

/-- C10, as stated, fails: a module bound to node 2 whose allocator is
exhausted returns `NULL` for `alloc(64, 8)` and for `realloc(4096, 64)` and
still issues a binding call, for the segment `(NULL, 64)`. -/
theorem sm_binds_on_failed_allocation :
    allocator_address (bumpModule 8192 8192 2) (SmRequest.alloc 64 8 0 0) = NULL ∧
    (sm_serve (fun _ => 0) (bumpModule 8192 8192 2) (SmRequest.alloc 64 8 0 0)).ret = NULL ∧
    (sm_serve (fun _ => 0) (bumpModule 8192 8192 2) (SmRequest.alloc 64 8 0 0)).binds =
      [{ segments := [{ mbs_start_addr := NULL, mbs_len := 64 }], num_segments := 1
         node_id := 2 }] ∧
    allocator_address (bumpModule 8192 8192 2) (SmRequest.realloc 4096 64 0) = NULL ∧
    (sm_serve (fun _ => 0) (bumpModule 8192 8192 2) (SmRequest.realloc 4096 64 0)).ret = NULL ∧
    (sm_serve (fun _ => 0) (bumpModule 8192 8192 2) (SmRequest.realloc 4096 64 0)).binds ≠ [] := by
  decide

/-- C10, amended: the binding call is gated on `mem_node` alone. When the
allocator returns null the call returns null; it issues no binding call when
`mem_node` is negative, and one binding call, for the segment `(NULL, size)`
on `mem_node`, when `mem_node` is not negative. -/
theorem sm_failed_allocation_binding {σ : Type} (bind : BindCall → Int)
    (mpool_sm : mca_mpool_sm_module_t σ) (req : SmRequest)
    (hfail : allocator_address mpool_sm req = NULL) :
    (sm_serve bind mpool_sm req).ret = NULL ∧
    (mpool_sm.mem_node < 0 → (sm_serve bind mpool_sm req).binds = []) ∧
    (0 ≤ mpool_sm.mem_node →
      (sm_serve bind mpool_sm req).binds =
        [{ segments := [{ mbs_start_addr := NULL, mbs_len := req.size }]
           num_segments := 1
           node_id := mpool_sm.mem_node }]) := by
  have h := sm_serve_eq bind mpool_sm req
  refine ⟨by rw [h.1, hfail], ?_, ?_⟩
  · intro hneg
    rw [h.2, if_neg (not_le.mpr hneg)]
  · intro hpos
    rw [h.2, if_pos hpos, hfail]

/-- C10 amended, at concrete inputs: an exhausted allocator under the unbound
module issues no binding call. -/
theorem sm_failed_allocation_binding_witness :
    (sm_serve (fun _ => 0) (bumpModule 8192 8192 (-1)) (SmRequest.alloc 64 8 0 0)).ret = NULL ∧
    (sm_serve (fun _ => 0) (bumpModule 8192 8192 (-1)) (SmRequest.alloc 64 8 0 0)).binds = [] := by
  have h := sm_failed_allocation_binding (fun _ => 0) (bumpModule 8192 8192 (-1))
    (SmRequest.alloc 64 8 0 0) (by decide)
  exact ⟨h.1, h.2.1 (by decide)⟩

/-! ## Theorems : the fault-tolerance event handler -/

/-- A lookup only returns a registered instance. -/
theorem lookup_registered (modules : List ModuleEntry) (name : String) (m : Nat)
    (h : mca_mpool_base_module_lookup modules name = some m) : registered m modules := by
  unfold mca_mpool_base_module_lookup at h
  cases hf : modules.find? (fun e => e.component_name == name) with
  | none => rw [hf] at h; simp at h
  | some e =>
    rw [hf] at h
    simp at h
    exact ⟨e, List.mem_of_find?_eq_some hf, h⟩

/-- Destroying an instance removes it from the registry. -/
theorem destroy_unregisters (modules : List ModuleEntry) (m : Nat) :
    ¬ registered m (mca_mpool_base_module_destroy modules (some m)) := by
  rintro ⟨e, he, hm⟩
  simp [mca_mpool_base_module_destroy, List.mem_filter] at he
  exact he.2 hm

/-- Destroying never registers an instance. -/
theorem destroy_keeps_unregistered (modules : List ModuleEntry) (d : Option Nat) (m : Nat)
    (h : ¬ registered m modules) :
    ¬ registered m (mca_mpool_base_module_destroy modules d) := by
  rintro ⟨e, he, hm⟩
  apply h
  cases d with
  | none => exact ⟨e, he, hm⟩
  | some d =>
    simp [mca_mpool_base_module_destroy, List.mem_filter] at he
    exact ⟨e, he.1, hm⟩

/-- One event either leaves the registry alone and destroys nothing, or looks
"sm" up and destroys what the lookup returned, once. -/
theorem ft_event_destroys (env : FtEnv) (state : opal_crs_state) (w : FtWorld) :
    ((mca_mpool_sm_ft_event env state w).world.mca_mpool_base_modules =
        w.mca_mpool_base_modules ∧
      ∀ m : Nat, (mca_mpool_sm_ft_event env state w).calls.count
        (FtCall.module_destroy (some m)) = 0) ∨
    ((mca_mpool_sm_ft_event env state w).world.mca_mpool_base_modules =
        mca_mpool_base_module_destroy w.mca_mpool_base_modules
          (mca_mpool_base_module_lookup w.mca_mpool_base_modules "sm") ∧
      ∀ m : Nat, (mca_mpool_sm_ft_event env state w).calls.count
        (FtCall.module_destroy (some m)) =
          if mca_mpool_base_module_lookup w.mca_mpool_base_modules "sm" = some m
          then 1 else 0) := by
  unfold mca_mpool_sm_ft_event
  split
  · left; simp
  · split
    · split
      · right
        cases hm : w.mca_common_sm_mmap with
        | none => simp [List.count_cons]
        | some arena =>
          by_cases hf : env.mca_common_sm_mmap_fini arena = OMPI_SUCCESS <;>
            simp [hf, List.count_cons]
      · left; simp
    · split
      · right
        cases hm : w.mca_common_sm_mmap with
        | none => simp [List.count_cons]
        | some arena =>
          by_cases hf : env.mca_common_sm_mmap_fini arena = OMPI_SUCCESS <;>
            simp [hf, List.count_cons]
      · split <;> (left; simp)

/-- Over a whole sequence of events an instance is destroyed at most once, and
never when it is not registered at the start. -/
theorem ft_deliver_destroy_count (events : List (FtEnv × opal_crs_state)) :
    ∀ (w : FtWorld) (m : Nat),
      (ft_deliver events w).2.count (FtCall.module_destroy (some m)) ≤ 1 ∧
      (¬ registered m w.mca_mpool_base_modules →
        (ft_deliver events w).2.count (FtCall.module_destroy (some m)) = 0) := by
  induction events with
  | nil => intro w m; simp [ft_deliver]
  | cons ev rest ih =>
    intro w m
    obtain ⟨env, state⟩ := ev
    simp only [ft_deliver, List.count_append]
    have ihm := ih (mca_mpool_sm_ft_event env state w).world m
    rcases ft_event_destroys env state w with ⟨hreg, hcount⟩ | ⟨hreg, hcount⟩
    · rw [hcount m]
      rw [hreg] at ihm
      simpa using ihm
    · rw [hcount m]
      rw [hreg] at ihm
      by_cases hl : mca_mpool_base_module_lookup w.mca_mpool_base_modules "sm" = some m
      · have hin : registered m w.mca_mpool_base_modules := lookup_registered _ _ _ hl
        rw [hl] at ihm
        have h0 := ihm.2 (destroy_unregisters _ m)
        rw [if_pos hl, h0]
        exact ⟨le_refl _, fun hnot => absurd hin hnot⟩
      · rw [if_neg hl]
        refine ⟨by simpa using ihm.1, fun hnot => ?_⟩
        have h0 := ihm.2 (destroy_keeps_unregistered _ _ m hnot)
        simpa using h0

/-- C3: on a Restart or RestartPre event, with an arena mapped the arena is
finalized exactly once, its `map_path` is appended to the cleanup list, with
the immediate flag false, exactly when the finalize returned `OMPI_SUCCESS`,
and the arena is released in both cases, in that order; with no arena mapped
there is no finalize, no cleanup append and no release. No cleanup append ever
carries the immediate flag, so the file is not removed synchronously. -/
theorem ft_restart_arena_teardown (env : FtEnv) (state : opal_crs_state) (w : FtWorld)
    (hstate : state = opal_crs_state.OPAL_CRS_RESTART ∨
      state = opal_crs_state.OPAL_CRS_RESTART_PRE) :
    (∀ arena, w.mca_common_sm_mmap = some arena →
      (mca_mpool_sm_ft_event env state w).calls.filter FtCall.isArenaCall =
        [FtCall.mmap_fini arena] ++
        (if env.mca_common_sm_mmap_fini arena = OMPI_SUCCESS
          then [FtCall.cleanup_append arena.map_path false] else []) ++
        [FtCall.obj_release arena]) ∧
    (w.mca_common_sm_mmap = none →
      (mca_mpool_sm_ft_event env state w).calls.filter FtCall.isArenaCall = []) ∧
    (∀ path flag, FtCall.cleanup_append path flag ∈ (mca_mpool_sm_ft_event env state w).calls →
      flag = false) := by
  have hne1 : state ≠ opal_crs_state.OPAL_CRS_CHECKPOINT := by
    rcases hstate with h | h <;> rw [h] <;> decide
  have hne2 : state ≠ opal_crs_state.OPAL_CRS_CONTINUE := by
    rcases hstate with h | h <;> rw [h] <;> decide
  unfold mca_mpool_sm_ft_event
  rw [if_neg hne1, if_neg hne2, if_pos hstate]
  cases hm : w.mca_common_sm_mmap with
  | none => simp [FtCall.isArenaCall]
  | some arena =>
    by_cases hf : env.mca_common_sm_mmap_fini arena = OMPI_SUCCESS <;>
      simp [hf, FtCall.isArenaCall]

/-- C3 at concrete inputs: a Restart with an arena mapped whose finalize
succeeds. -/
theorem ft_restart_arena_teardown_witness :
    (mca_mpool_sm_ft_event (sampleEnv false 0) opal_crs_state.OPAL_CRS_RESTART
        sampleWorld).calls.filter FtCall.isArenaCall =
      [FtCall.mmap_fini { map_addr := 4096, map_path := "/tmp/job/shared_mem_pool.n0" },
       FtCall.cleanup_append "/tmp/job/shared_mem_pool.n0" false,
       FtCall.obj_release { map_addr := 4096, map_path := "/tmp/job/shared_mem_pool.n0" }] :=
  (ft_restart_arena_teardown (sampleEnv false 0) opal_crs_state.OPAL_CRS_RESTART sampleWorld
    (Or.inl rfl)).1 _ rfl

/-- C4: for every finite sequence of fault-tolerance events (RestartPre then
Restart, repeated Restart, Continue with the continue-like-restart flag set,
...), delivered from any state, so also from one in which the "sm" module is
registered, the destroy operation of the registry is applied to any one
module instance at most once. -/
theorem ft_instance_destroyed_at_most_once (events : List (FtEnv × opal_crs_state))
    (w : FtWorld) (m : Nat) :
    (ft_deliver events w).2.count (FtCall.module_destroy (some m)) ≤ 1 :=
  (ft_deliver_destroy_count events w m).1

/-- The handler does destroy: RestartPre, Restart, Continue with the flag set and
Restart again, from a state with "sm" registered as instance 7, destroy
instance 7 once and pass `NULL` to the three later destroy calls. -/
theorem ft_deliver_sample_destroys :
    (ft_deliver
      [(sampleEnv false 0, opal_crs_state.OPAL_CRS_RESTART_PRE),
       (sampleEnv false 0, opal_crs_state.OPAL_CRS_RESTART),
       (sampleEnv true 0, opal_crs_state.OPAL_CRS_CONTINUE),
       (sampleEnv false 0, opal_crs_state.OPAL_CRS_RESTART)]
      sampleWorld).2.filter FtCall.isDestroy =
    [FtCall.module_destroy (some 7), FtCall.module_destroy none,
     FtCall.module_destroy none, FtCall.module_destroy none] := by
  decide

/-- C5: with the continue-like-restart flag enabled a Continue event gives the
same return value, the same resulting state and the same collaborator calls as
a Restart event from the same state; with the flag disabled it returns
`OMPI_SUCCESS`, changes nothing and calls no collaborator. -/
theorem ft_continue_like_restart (env : FtEnv) (w : FtWorld) :
    mca_mpool_sm_ft_event { env with ompi_cr_continue_like_restart := true }
        opal_crs_state.OPAL_CRS_CONTINUE w =
      mca_mpool_sm_ft_event { env with ompi_cr_continue_like_restart := true }
        opal_crs_state.OPAL_CRS_RESTART w ∧
    mca_mpool_sm_ft_event { env with ompi_cr_continue_like_restart := false }
        opal_crs_state.OPAL_CRS_CONTINUE w =
      { rc := OMPI_SUCCESS, world := w, calls := [] } := by
  constructor
  · simp [mca_mpool_sm_ft_event]
  · simp [mca_mpool_sm_ft_event]

/-- C6: a Checkpoint event records exactly one path in the checkpoint metadata,
the job session directory followed by the path separator, "shared_mem_pool."
and the node name, returns `OMPI_SUCCESS` and does nothing else: the state,
and with it the arena mapping and its base address, is unchanged, and there is
no registry lookup or destroy, no finalize, no cleanup append, no release. -/
theorem ft_checkpoint_records_path (env : FtEnv) (w : FtWorld) :
    mca_mpool_sm_ft_event env opal_crs_state.OPAL_CRS_CHECKPOINT w =
      { rc := OMPI_SUCCESS
        world := w
        calls := [FtCall.metadata_write_token none env.CRS_METADATA_TOUCH
          (env.job_session_dir ++ env.OPAL_PATH_SEP ++ "shared_mem_pool." ++ env.nodename)] } ∧
    (mca_mpool_sm_ft_event env opal_crs_state.OPAL_CRS_CHECKPOINT w).world.mca_common_sm_mmap =
      w.mca_common_sm_mmap ∧
    mca_mpool_sm_base (mca_mpool_sm_ft_event env opal_crs_state.OPAL_CRS_CHECKPOINT w).world =
      mca_mpool_sm_base w ∧
    (mca_mpool_sm_ft_event env opal_crs_state.OPAL_CRS_CHECKPOINT w).calls.filter
      (fun c => c.isArenaCall || c.isDestroy || c.isLookup) = [] := by
  simp [mca_mpool_sm_ft_event, checkpoint_file_name, FtCall.isArenaCall, FtCall.isDestroy,
    FtCall.isLookup]

/-! ## Theorems : the fetch-and-increment entry points -/

/-- C8: for every entry point and every call in which a precondition fails
(runtime not initialized, pe outside `[0, num_participants)`, target outside
the remotely-addressable region, checked in that order), the call yields the
failure class of the first failing precondition, one class per precondition
and none of them success, makes no transport call and changes nothing: the
state, and with it the fetch slot of the caller, is as before. -/
theorem fetch_inc_precondition_failure (rt : Runtime) (type_name : ElemKind)
    (form : CallForm) (fetch target : Nat) (pe : Int) (w : ShmemWorld)
    (hfail : ¬ (rt.oshmem_shmem_initialized = true ∧ (0 ≤ pe ∧ pe < rt.oshmem_num_procs) ∧
      rt.is_symmetric_addr target = true)) :
    (atomic_fetch_inc_nbi rt type_name form fetch target pe w).status =
      ShmemStatus.failed
        (if rt.oshmem_shmem_initialized = false then CheckFailure.RuntimeNotInitialized
         else if ¬ (0 ≤ pe ∧ pe < rt.oshmem_num_procs) then CheckFailure.InvalidParticipant
         else CheckFailure.InvalidAddress) ∧
    (atomic_fetch_inc_nbi rt type_name form fetch target pe w).status ≠ ShmemStatus.success ∧
    (atomic_fetch_inc_nbi rt type_name form fetch target pe w).world.issued = w.issued ∧
    (atomic_fetch_inc_nbi rt type_name form fetch target pe w).world.outstanding =
      w.outstanding ∧
    (atomic_fetch_inc_nbi rt type_name form fetch target pe w).world.mem = w.mem ∧
    (shmem_quiet rt (atomic_fetch_inc_nbi rt type_name form fetch target pe w).world).mem =
      (shmem_quiet rt w).mem := by
  by_cases hinit : rt.oshmem_shmem_initialized = true
  · by_cases hpe : 0 ≤ pe ∧ pe < rt.oshmem_num_procs
    · have haddr : rt.is_symmetric_addr target = false := by
        cases h : rt.is_symmetric_addr target with
        | false => rfl
        | true => exact absurd ⟨hinit, hpe, h⟩ hfail
      cases form <;>
        simp [atomic_fetch_inc_nbi, shmem_ctx_atomic_fetch_inc_nbi, shmem_atomic_fetch_inc_nbi,
          DO_SHMEM_TYPE_ATOMIC_FETCH_INC_NBI, RUNTIME_CHECK_INIT, RUNTIME_CHECK_PE,
          RUNTIME_CHECK_ADDR, hinit, hpe, haddr]
    · cases form <;>
        simp [atomic_fetch_inc_nbi, shmem_ctx_atomic_fetch_inc_nbi, shmem_atomic_fetch_inc_nbi,
          DO_SHMEM_TYPE_ATOMIC_FETCH_INC_NBI, RUNTIME_CHECK_INIT, RUNTIME_CHECK_PE,
          RUNTIME_CHECK_ADDR, hinit, hpe]
  · have hinit2 : rt.oshmem_shmem_initialized = false := by
      cases h : rt.oshmem_shmem_initialized with
      | false => rfl
      | true => exact absurd h hinit
    cases form <;>
      simp [atomic_fetch_inc_nbi, shmem_ctx_atomic_fetch_inc_nbi, shmem_atomic_fetch_inc_nbi,
        DO_SHMEM_TYPE_ATOMIC_FETCH_INC_NBI, RUNTIME_CHECK_INIT, hinit2]

/-- C8 at concrete inputs: participant 4 of 4 is out of range. -/
theorem fetch_inc_precondition_failure_witness :
    (atomic_fetch_inc_nbi (sampleRuntime true) ElemKind._uint64 (CallForm.explicit 5) 1500 1000 4
        (sampleShmem 41)).status = ShmemStatus.failed CheckFailure.InvalidParticipant ∧
    (atomic_fetch_inc_nbi (sampleRuntime true) ElemKind._uint64 (CallForm.explicit 5) 1500 1000 4
        (sampleShmem 41)).world.issued = [] :=
  have h := fetch_inc_precondition_failure (sampleRuntime true) ElemKind._uint64
    (CallForm.explicit 5) 1500 1000 4 (sampleShmem 41) (by decide)
  ⟨h.1, h.2.2.1⟩

end OmpiSm
